import Mathlib

/-!
Shallow embedding of the core of `src/main.py` (YandexLavkaMonitor):
the slot parser (`parse_slots`), the fetch pipeline (`check_slots`,
`get_store_slots`, `direct_slots_check`), the message formatter
(`format_slots_message`), the change detector (`has_new_slots`) and the
notification fan-out (`send_notifications`), together with proofs of the
specification's testable properties about them.

Modelling conventions:
- Python dict `.get(k, default)` on an optional field becomes an
  `Option` field plus `Option.getD default` at the use site;
  bare subscription `d[k]` becomes a `match` that throws a `KeyError`.
- Python exceptions become the `Except` monad; a `try/except` block
  becomes a `match` on the `Except` value whose `error` arm is the
  handler's body.
- Python truthiness of a number (`if slot['price']:`) is `¬(p = 0)`,
  truthiness of a list is non-emptiness.
- `str(...)` comparison of two lists of `(date, start_time)` string
  pairs in `has_new_slots` is modelled as list equality: Python `repr`
  is injective on lists of pairs of strings, so the two agree.
-/

namespace Lavka

/-- A parsed slot record, as produced by `parse_slots` in `src/main.py`
(lines 203–209): a dict with keys `date`, `start_time`, `end_time`,
`price` (possibly `None`) and `currency`. -/
structure SlotRecord where
  date : String
  start_time : String
  end_time : String
  price : Option Nat
  currency : String
deriving DecidableEq, Repr

/-- The comparison key used by `has_new_slots`:
`(s.get('date', ''), s.get('start_time', ''))` (lines 245–246). -/
def slotKey (s : SlotRecord) : String × String :=
  (s.date, s.start_time)

/-- `has_new_slots` (lines 240–254), with the mutable `self.last_slots`
made explicit: takes the stored snapshot and the freshly fetched one and
returns the boolean result together with the new value of
`self.last_slots`.  An empty `current` returns `False` at once; otherwise
the `(date, start_time)` key sequences are compared, and on a difference
`self.last_slots` is overwritten with a copy of `current`. -/
def hasNewSlots (last current : List SlotRecord) : Bool × List SlotRecord :=
  if current.isEmpty then (false, last)
  else
    let changes : Bool := decide (current.map slotKey ≠ last.map slotKey)
    (changes, if changes then current else last)

/-- Outcome of one `bot.send_message` call for one recipient: either it
returns normally or it raises an exception carrying an error text. -/
inductive DeliveryResult where
  | ok
  | fail (msg : String)
deriving DecidableEq, Repr

/-- Whether the character list `pat` is a prefix of `s`. -/
def prefixOf : List Char → List Char → Bool
  | [], _ => true
  | _ :: _, [] => false
  | p :: ps, c :: cs => p == c && prefixOf ps cs

/-- Whether the character list `pat` occurs contiguously in `s`. -/
def occursIn : List Char → List Char → Bool
  | pat, [] => prefixOf pat []
  | pat, c :: rest => prefixOf pat (c :: rest) || occursIn pat rest

/-- Python's substring test `pat in s`. -/
def strContains (s pat : String) : Bool :=
  occursIn pat.data s.data

/-- Python's `str.lower()`, restricted to ASCII case mapping (the error
texts classified by `send_notifications` are ASCII). -/
def lowerStr (s : String) : String :=
  ⟨s.data.map Char.toLower⟩

/-- The "recipient unreachable" classification of `send_notifications`
(line 281): `"bot was blocked" in str(e).lower() or "chat not found" in
str(e).lower()`. -/
def isUnreachableMsg (msg : String) : Bool :=
  strContains (lowerStr msg) "bot was blocked" ||
    strContains (lowerStr msg) "chat not found"

/-- Whether a delivery outcome is a failure classified as "recipient
unreachable". -/
def isUnreachableFail : DeliveryResult → Bool
  | .ok => false
  | .fail msg => isUnreachableMsg msg

/-- Whether a delivery outcome is a success. -/
def isOkDelivery : DeliveryResult → Bool
  | .ok => true
  | .fail _ => false

/-- The `for user_id in list(self.subscribers)` loop of
`send_notifications` (lines 265–283).  The first list argument is the
batch still to process (the snapshot `list(self.subscribers)` taken at
the start), the second is the live value of `self.subscribers`, the last
is `successful_sends`.  A successful send increments the counter; a
failure whose text matches the unreachable classification removes the
recipient from the live set; any other failure is only logged. -/
def notifyLoop (deliver : Nat → DeliveryResult) :
    List Nat → List Nat → Nat → List Nat × Nat
  | [], subs, n => (subs, n)
  | u :: rest, subs, n =>
    if isOkDelivery (deliver u) then notifyLoop deliver rest subs (n + 1)
    else
      notifyLoop deliver rest
        (if isUnreachableFail (deliver u) then subs.erase u else subs) n

/-- Result of one `send_notifications` batch: the final value of
`self.subscribers`, the final value of the local `successful_sends`
counter (only logged at line 285), and the Python function's return
value.  The source's `send_notifications` has a bare `return` on the
empty-subscriber path and otherwise falls off the end of the body, so
the return value is always `None`, modelled as `ret = none`. -/
structure NotifyResult where
  subscribers : List Nat
  successful_sends : Nat
  ret : Option Nat
deriving DecidableEq, Repr

/-- `send_notifications` (lines 256–285), with `self.subscribers` made
explicit (as the list `list(self.subscribers)` would produce; a Python
set never holds duplicates) and the network call abstracted into the
`deliver` oracle. -/
def sendNotifications (subscribers : List Nat)
    (deliver : Nat → DeliveryResult) : NotifyResult :=
  if subscribers.isEmpty then ⟨subscribers, 0, none⟩
  else
    let r := notifyLoop deliver subscribers subscribers 0
    ⟨r.1, r.2, none⟩

/-- Concrete delivery oracle used by witnesses: recipient 2 is
unreachable (blocked bot), recipient 3 hits a transient error, everyone
else succeeds. -/
def deliverW : Nat → DeliveryResult
  | 2 => .fail "Forbidden: bot was blocked by the user"
  | 3 => .fail "Bad Request: message is too long"
  | _ => .ok

/-- Splitting a character list at every `'-'`, keeping empty pieces:
Python's `"-"`-separated decomposition used to model
`datetime.strptime(s, '%Y-%m-%d')`. -/
def splitOnDash : List Char → List (List Char)
  | [] => [[]]
  | c :: rest =>
    if c = '-' then [] :: splitOnDash rest
    else
      match splitOnDash rest with
      | [] => [[c]]
      | h :: t => (c :: h) :: t

/-- Numeric value of a non-empty all-digit character list, `none`
otherwise. -/
def charsToNat? (s : List Char) : Option Nat :=
  if s ≠ [] ∧ s.all Char.isDigit then
    some (s.foldl (fun n c => n * 10 + (c.toNat - 48)) 0)
  else none

/-- Gregorian leap-year test, as `datetime` validates dates. -/
def isLeapYear (y : Nat) : Bool :=
  (y % 4 == 0 && y % 100 != 0) || y % 400 == 0

/-- Number of days in a month, as `datetime` validates dates. -/
def daysInMonth (y m : Nat) : Nat :=
  if m = 2 then (if isLeapYear y then 29 else 28)
  else if m = 4 ∨ m = 6 ∨ m = 9 ∨ m = 11 then 30 else 31

/-- `datetime.strptime(s, '%Y-%m-%d')` (line 222), as an option:
CPython's `_strptime` matches `%Y` against exactly four digits, `%m`
against one or two digits with value 1–12, `%d` against one or two
digits with value 1–31, requires the whole string to be consumed, and
the `datetime` constructor then rejects year 0 and a day beyond the
month's length.  Returns `(year, month, day)` on success. -/
def parseDate (s : String) : Option (Nat × Nat × Nat) :=
  match splitOnDash s.data with
  | [ys, ms, ds] =>
    match charsToNat? ys, charsToNat? ms, charsToNat? ds with
    | some y, some m, some d =>
      if ys.length = 4 ∧ (ms.length = 1 ∨ ms.length = 2) ∧
          (ds.length = 1 ∨ ds.length = 2) ∧
          1 ≤ y ∧ 1 ≤ m ∧ m ≤ 12 ∧ 1 ≤ d ∧ d ≤ daysInMonth y m then
        some (y, m, d)
      else none
    | _, _, _ => none
  | _ => none

/-- Two-digit zero padding, as `strftime('%d'/'%m')` renders day and
month. -/
def pad2 (n : Nat) : String :=
  if n < 10 then "0" ++ toString n else toString n

/-- Four-digit zero padding, as `strftime('%Y')` renders the year. -/
def pad4 (n : Nat) : String :=
  if n < 10 then "000" ++ toString n
  else if n < 100 then "00" ++ toString n
  else if n < 1000 then "0" ++ toString n
  else toString n

/-- `date_obj.strftime('%d.%m.%Y')` (line 223): the fixed human display
pattern `DD.MM.YYYY`. -/
def dateDisplay (y m d : Nat) : String :=
  pad2 d ++ "." ++ pad2 m ++ "." ++ pad4 y

/-- The price line of one rendered entry (lines 227–228): Python's
`if slot['price']:` is a truthiness test, so the line is rendered only
when the price is present AND non-zero. -/
def priceLine (s : SlotRecord) : String :=
  match s.price with
  | some p =>
    if p = 0 then "" else "   💰 " ++ toString p ++ " " ++ s.currency ++ "\n"
  | none => ""

/-- One iteration of the rendering loop of `format_slots_message`
(lines 220–232): the `try` body builds the three-part entry for
1-based index `i`; a date that `strptime` rejects raises, the
`except` arm runs `continue`, and no entry is produced (`none`). -/
def renderSlot (i : Nat) (s : SlotRecord) : Option String :=
  (parseDate s.date).map fun p =>
    "<b>" ++ toString i ++ ". 📅 " ++ dateDisplay p.1 p.2.1 p.2.2 ++
      "</b>\n" ++ "   🕒 " ++ s.start_time ++ " - " ++ s.end_time ++ "\n" ++
      priceLine s ++ "\n"

/-- The rendering loop `for i, slot in enumerate(slots[:15], 1)`: the
1-based counter advances for every record of the slice, rendered or
skipped, so a skipped record still consumes its position and its
number. -/
def renderEntries : Nat → List SlotRecord → List String
  | _, [] => []
  | i, s :: rest =>
    match renderSlot i s with
    | some e => e :: renderEntries (i + 1) rest
    | none => renderEntries (i + 1) rest

/-- The `... и ещё N слотов` suffix (lines 234–235), appended exactly
when the full record list holds more than 15 records, with `N` the full
record count minus 15. -/
def moreSuffix (slots : List SlotRecord) : String :=
  if 15 < slots.length then
    "<i>... и ещё " ++ toString (slots.length - 15) ++ " слотов</i>\n"
  else ""

/-- `format_slots_message` (lines 214–238), with `datetime.now()` of the
footer passed in as `now`: an empty snapshot yields the fixed no-slots
text; otherwise the header, the rendered entries of the first 15
records, the more-suffix and the footer are concatenated. -/
def formatSlotsMessage (now : String) (slots : List SlotRecord) : String :=
  if slots.isEmpty then "❌ Нет доступных слотов"
  else
    "🎉 <b>Доступные слоты для доставки:</b>\n\n" ++
      String.join (renderEntries 1 (slots.take 15)) ++
      moreSuffix slots ++
      ("\n🕐 <i>Проверено: " ++ now ++ "</i>")

/-- Concrete well-formed record used by witnesses. -/
def slotW : SlotRecord :=
  ⟨"2025-01-02", "10:00", "11:00", some 199, "₽"⟩

/-- Concrete record whose price is present but zero — Python renders no
price line for it (`if slot['price']:` is falsy at `0`). -/
def slotZeroPrice : SlotRecord :=
  ⟨"2025-03-04", "10:00", "11:00", some 0, "₽"⟩

/-- Concrete record whose date string `strptime` rejects. -/
def badDateSlot : SlotRecord :=
  ⟨"скоро", "10:00", "11:00", none, "₽"⟩

/-- Concrete 16-record snapshot whose first record has an unparseable
date. -/
def slotsW16 : List SlotRecord :=
  badDateSlot :: List.replicate 15 slotW

/-- The `price` sub-object of a raw slot entry, `slot.get('price', {})`:
both `value` and `currency` may be absent. -/
structure RawPrice where
  value : Option Nat
  currency : Option String
deriving DecidableEq, Repr

/-- One raw slot entry of the API response, as `parse_slots` reads it:
`available` is the truthiness of `slot.get('available', False)`,
`slotType` is `slot.get('type')`, `fromTime`/`toTime` are
`slot.get('from')`/`slot.get('to')` before their `''` defaults, `price`
is `slot.get('price')` before its `{}` default. -/
structure RawSlot where
  available : Bool
  slotType : Option String
  fromTime : Option String
  toTime : Option String
  price : Option RawPrice
deriving DecidableEq, Repr

/-- One per-day entry of the API response: `date` is
`day_slots.get('date')` before its `''` default, `slots` is
`day_slots.get('slots')` before its `[]` default. -/
structure RawDay where
  date : Option String
  slots : Option (List RawSlot)
deriving DecidableEq, Repr

/-- The top level of the API response as `parse_slots` reads it: the
primary `slots` key and the fallback `available_slots` key, either of
which may be absent. -/
structure SlotsData where
  slots : Option (List RawDay)
  available_slots : Option (List RawDay)
deriving DecidableEq, Repr

/-- Lines 193–195: `slots_list = slots_data.get('slots', [])`, falling
back to `slots_data.get('available_slots', [])` when the primary value
is missing or empty (`if not slots_list:`). -/
def slotsListOf (d : SlotsData) : List RawDay :=
  let l := d.slots.getD []
  if l.isEmpty then d.available_slots.getD [] else l

/-- Line 202: `slot.get('available', False) and slot.get('type') ==
'regular'`. -/
def slotOk (s : RawSlot) : Bool :=
  s.available && s.slotType == some "regular"

/-- Lines 203–209: the record appended for an accepted slot, with the
`.get` defaults applied (`''` for date and times, `'₽'` for the
currency, `None` propagated for a missing price value). -/
def mkRecord (day : RawDay) (s : RawSlot) : SlotRecord :=
  { date := day.date.getD ""
    start_time := s.fromTime.getD ""
    end_time := s.toTime.getD ""
    price := (s.price.getD ⟨none, none⟩).value
    currency := ((s.price.getD ⟨none, none⟩).currency).getD "₽" }

/-- `parse_slots` (lines 188–212): iterate the day entries in order, and
within each day append a record for every slot whose availability flag
is truthy and whose type equals `'regular'`. -/
def parseSlots (d : SlotsData) : List SlotRecord :=
  (slotsListOf d).flatMap fun day =>
    ((day.slots.getD []).filter slotOk).map (mkRecord day)

/-- A Python exception, as far as the fetch pipeline can observe one. -/
inductive PyErr where
  | netError (msg : String)
  | jsonError (msg : String)
  | keyError (key : String)
deriving DecidableEq, Repr

/-- One store entry of the search response: `address_full` is
`store.get('address', {}).get('full')` before its `''` default, `name`
and `id` are the raw `name`/`id` keys — `store['id']` (line 125) and
`store['name']` (line 126) raise `KeyError` when absent. -/
structure Store where
  address_full : Option String
  name : Option String
  id : Option Nat
deriving DecidableEq, Repr

/-- The search response as `check_slots` reads it (lines 114–117):
`found_stores` is `data.get('found', {}).get('stores')`, `stores` the
top-level fallback key. -/
structure SearchData where
  found_stores : Option (List Store)
  stores : Option (List Store)
deriving DecidableEq, Repr

/-- Lines 114–117: the store list, falling back to the top-level key
when the primary path yields nothing (`if not stores:`). -/
def storesOf (d : SearchData) : List Store :=
  let s := d.found_stores.getD []
  if s.isEmpty then d.stores.getD [] else s

/-- Line 124: `'среднерогатская' in address and '20' in address` on the
lowercased full address (lowercasing modelled ASCII-only; the Cyrillic
pattern is already lowercase). -/
def storeMatch (st : Store) : Bool :=
  let addr := lowerStr (st.address_full.getD "")
  strContains addr "среднерогатская" && strContains addr "20"

/-- The external world as the fetch pipeline observes it: the HTTP
status of each GET and the decoded JSON body of each `response.json()`,
any of which may instead raise. -/
structure Env where
  searchGet : Except PyErr Nat
  searchJson : Except PyErr SearchData
  storeSlotsGet : Nat → Except PyErr Nat
  storeSlotsJson : Nat → Except PyErr SlotsData
  directGet : Except PyErr Nat
  directJson : Except PyErr SlotsData

/-- The `try` body of `get_store_slots` (lines 141–154): GET the store's
slots endpoint; on status 200 parse the JSON, otherwise log and return
`None`. -/
def getStoreSlotsBody (env : Env) (storeId : Nat) :
    Except PyErr (Option (List SlotRecord)) := do
  let status ← env.storeSlotsGet storeId
  if status = 200 then
    let d ← env.storeSlotsJson storeId
    pure (some (parseSlots d))
  else pure none

/-- `get_store_slots` (lines 139–157): its own `try/except` converts any
exception into `None`. -/
def getStoreSlots (env : Env) (storeId : Nat) : Option (List SlotRecord) :=
  match getStoreSlotsBody env storeId with
  | .ok v => v
  | .error _ => none

/-- The `try` body of `direct_slots_check` (lines 161–182). -/
def directSlotsCheckBody (env : Env) :
    Except PyErr (Option (List SlotRecord)) := do
  let status ← env.directGet
  if status = 200 then
    let d ← env.directJson
    pure (some (parseSlots d))
  else pure none

/-- `direct_slots_check` (lines 159–186): its own `try/except` converts
any exception into `None`. -/
def directSlotsCheck (env : Env) : Option (List SlotRecord) :=
  match directSlotsCheckBody env with
  | .ok v => v
  | .error _ => none

/-- The `for store in stores` loop of `check_slots` (lines 119–130):
the first store whose lowercased address contains both patterns causes
an early `return` with that store's slots (`some result`); `store['id']`
and `store['name']` raise `KeyError` when the matched store lacks those
keys; a completed loop falls through (`none`). -/
def findStoreLoop (env : Env) : List Store →
    Except PyErr (Option (Option (List SlotRecord)))
  | [] => pure none
  | st :: rest =>
    if storeMatch st then
      match st.id with
      | none => throw (.keyError "id")
      | some sid =>
        match st.name with
        | none => throw (.keyError "name")
        | some _ => pure (some (getStoreSlots env sid))
    else findStoreLoop env rest

/-- The `try` body of `check_slots` (lines 93–133): GET the search
endpoint; on status 200 decode and scan the stores, returning a matched
store's slots; otherwise — no match or non-200 status — fall through to
`direct_slots_check`. -/
def checkSlotsBody (env : Env) : Except PyErr (Option (List SlotRecord)) := do
  let status ← env.searchGet
  if status = 200 then
    let data ← env.searchJson
    match ← findStoreLoop env (storesOf data) with
    | some slots => pure slots
    | none => pure (directSlotsCheck env)
  else pure (directSlotsCheck env)

/-- `check_slots` with its outer `try/except` (lines 135–137) left
visible: the handler logs and evaluates to `None`, so the result is
always `ok`. -/
def checkSlotsCaught (env : Env) : Except PyErr (Option (List SlotRecord)) :=
  match checkSlotsBody env with
  | .ok v => .ok v
  | .error _ => .ok none

/-- `check_slots` (lines 91–137) as its caller sees it: a snapshot list
or the `None` failure value. -/
def checkSlots (env : Env) : Option (List SlotRecord) :=
  match checkSlotsBody env with
  | .ok v => v
  | .error _ => none

/-- Concrete environment where every network call raises. -/
def envFail : Env :=
  { searchGet := .error (.netError "timeout")
    searchJson := .error (.jsonError "bad json")
    storeSlotsGet := fun _ => .error (.netError "timeout")
    storeSlotsJson := fun _ => .error (.jsonError "bad json")
    directGet := .error (.netError "timeout")
    directJson := .error (.jsonError "bad json") }

/-- Concrete API response used by the C8 witness: one day with three
slots — available regular, available express, unavailable regular. -/
def dataW : SlotsData :=
  { slots := some
      [{ date := some "2025-01-02"
         slots := some
           [{ available := true, slotType := some "regular"
              fromTime := some "10:00", toTime := some "11:00"
              price := some ⟨some 199, some "₽"⟩ }
            , { available := true, slotType := some "express"
                fromTime := some "11:00", toTime := some "12:00"
                price := some ⟨some 299, some "₽"⟩ }
            , { available := false, slotType := some "regular"
                fromTime := some "12:00", toTime := some "13:00"
                price := some ⟨some 199, some "₽"⟩ }] }]
    available_slots := none }

end Lavka

namespace Lavka

/-- C1: For every stored snapshot and every non-empty new snapshot whose
sequence of `(date, start_time)` pairs differs from the stored
snapshot's sequence (a mere reordering included), `has_new_slots`
returns `true` and the stored last-snapshot is overwritten with the new
snapshot. -/
theorem thm_C1 (last current : List SlotRecord)
    (hne : current ≠ [])
    (hdiff : current.map slotKey ≠ last.map slotKey) :
    hasNewSlots last current = (true, current) := by
  simp [hasNewSlots, hne, hdiff]

/-- Witness for C1 at a concrete input: the stored snapshot holds two
records and the new snapshot holds the same two records reordered; the
detector reports a change and stores the new ordering. -/
theorem thm_C1_witness :
    hasNewSlots
      [⟨"2025-01-02", "10:00", "11:00", some 199, "₽"⟩,
       ⟨"2025-01-02", "12:00", "13:00", some 199, "₽"⟩]
      [⟨"2025-01-02", "12:00", "13:00", some 199, "₽"⟩,
       ⟨"2025-01-02", "10:00", "11:00", some 199, "₽"⟩]
    = (true,
       [⟨"2025-01-02", "12:00", "13:00", some 199, "₽"⟩,
        ⟨"2025-01-02", "10:00", "11:00", some 199, "₽"⟩]) :=
  thm_C1 _ _ (by decide) (by decide)

/-- C2: an empty new snapshot always yields `false` and leaves the
stored last-snapshot unchanged, whatever the stored snapshot is. -/
theorem thm_C2 (last : List SlotRecord) :
    hasNewSlots last [] = (false, last) := by
  simp [hasNewSlots]

/-- C3: the detector's answer depends only on the `(date, start_time)`
key sequence of the new snapshot — two new snapshots with identical key
sequences get the same answer — and when the new snapshot's key sequence
equals the stored one's the detector reports `false` and leaves the
stored snapshot unchanged, whatever the price/currency fields are. -/
theorem thm_C3 (last a b : List SlotRecord)
    (hab : a.map slotKey = b.map slotKey) :
    (hasNewSlots last a).1 = (hasNewSlots last b).1 ∧
    (a.map slotKey = last.map slotKey →
      hasNewSlots last a = (false, last)) := by
  constructor
  · have hempty : a.isEmpty = b.isEmpty := by
      cases a with
      | nil =>
        cases b with
        | nil => rfl
        | cons x xs => simp at hab
      | cons x xs =>
        cases b with
        | nil => simp at hab
        | cons y ys => rfl
    simp only [hasNewSlots, hempty, hab]
    split_ifs <;> rfl
  · intro hsame
    cases a with
    | nil => simp [hasNewSlots]
    | cons x xs => simp [hasNewSlots, hsame]

/-- Witness for C3 at a concrete input: two singleton snapshots with the
same key but different prices get the same answer, and a snapshot whose
keys match the stored one's reports no change even though its price
differs from the stored record's. -/
theorem thm_C3_witness :
    (hasNewSlots [⟨"2025-01-02", "10:00", "11:00", some 199, "₽"⟩]
        [⟨"2025-01-02", "10:00", "12:00", some 250, "₽"⟩]).1
      = (hasNewSlots [⟨"2025-01-02", "10:00", "11:00", some 199, "₽"⟩]
        [⟨"2025-01-02", "10:00", "12:00", none, "EUR"⟩]).1 ∧
    hasNewSlots [⟨"2025-01-02", "10:00", "11:00", some 199, "₽"⟩]
        [⟨"2025-01-02", "10:00", "12:00", some 250, "₽"⟩]
      = (false, [⟨"2025-01-02", "10:00", "11:00", some 199, "₽"⟩]) := by
  have h := thm_C3 [⟨"2025-01-02", "10:00", "11:00", some 199, "₽"⟩]
    [⟨"2025-01-02", "10:00", "12:00", some 250, "₽"⟩]
    [⟨"2025-01-02", "10:00", "12:00", none, "EUR"⟩] (by decide)
  exact ⟨h.1, h.2 (by decide)⟩

/-- Membership in the live subscriber set after a notification batch: a
recipient survives the loop iff it was in the live set and is not a
batch member whose delivery failed with an unreachable-classified
error. -/
theorem notifyLoop_mem (deliver : Nat → DeliveryResult) (u : Nat)
    (batch : List Nat) :
    ∀ (subs : List Nat) (n : Nat), subs.Nodup →
      (u ∈ (notifyLoop deliver batch subs n).1 ↔
        u ∈ subs ∧ ¬(u ∈ batch ∧ isUnreachableFail (deliver u) = true)) := by
  induction batch with
  | nil =>
    intro subs n _
    simp [notifyLoop]
  | cons v rest ih =>
    intro subs n hnd
    by_cases hok : isOkDelivery (deliver v) = true
    · rw [notifyLoop, if_pos hok, ih subs (n + 1) hnd]
      by_cases huv : u = v
      · subst huv
        have hfail : isUnreachableFail (deliver u) = false := by
          cases hd : deliver u with
          | ok => rfl
          | fail msg => rw [hd] at hok; simp [isOkDelivery] at hok
        simp [hfail]
      · simp [List.mem_cons, huv]
    · rw [notifyLoop, if_neg hok]
      by_cases hun : isUnreachableFail (deliver v) = true
      · rw [if_pos hun, ih (subs.erase v) n (hnd.erase v)]
        by_cases huv : u = v
        · subst huv
          simp [hnd.not_mem_erase, hun]
        · rw [List.mem_erase_of_ne huv]
          simp [List.mem_cons, huv]
      · rw [if_neg hun, ih subs n hnd]
        by_cases huv : u = v
        · subst huv
          simp [hun]
        · simp [List.mem_cons, huv]

/-- The `successful_sends` counter after a batch counts exactly the
successful deliveries among the whole batch, independently of the live
set and of any failures encountered along the way. -/
theorem notifyLoop_count (deliver : Nat → DeliveryResult)
    (batch : List Nat) :
    ∀ (subs : List Nat) (n : Nat),
      (notifyLoop deliver batch subs n).2 =
        n + batch.countP (fun u => isOkDelivery (deliver u)) := by
  induction batch with
  | nil =>
    intro subs n
    simp [notifyLoop]
  | cons v rest ih =>
    intro subs n
    by_cases hok : isOkDelivery (deliver v) = true
    · rw [notifyLoop, if_pos hok, ih]
      simp [List.countP_cons, hok]
      omega
    · rw [notifyLoop, if_neg hok]
      split_ifs with hun
      · rw [ih]
        simp [List.countP_cons, hok]
      · rw [ih]
        simp [List.countP_cons, hok]

/-- C4: in a `send_notifications` batch, a recipient present at the
start of the batch ends up removed from the subscriber set iff its
delivery fails with an error text matching the unreachable
classification (blocked bot / chat not found); a success or any other
failure leaves it in the set. -/
theorem thm_C4 (subscribers : List Nat) (deliver : Nat → DeliveryResult)
    (u : Nat) (hnd : subscribers.Nodup) (hu : u ∈ subscribers) :
    u ∉ (sendNotifications subscribers deliver).subscribers ↔
      isUnreachableFail (deliver u) = true := by
  have hne : subscribers.isEmpty = false := by
    cases subscribers with
    | nil => simp at hu
    | cons v rest => rfl
  simp only [sendNotifications, hne, Bool.false_eq_true, if_false]
  rw [notifyLoop_mem deliver u subscribers subscribers 0 hnd]
  simp [hu]

/-- Witness for C4 at a concrete input: with subscribers `[1, 2, 3]`,
recipient 2 (blocked bot) is removed, recipient 3 (other failure) is
kept, and the final subscriber set is `[1, 3]`. -/
theorem thm_C4_witness :
    2 ∉ (sendNotifications [1, 2, 3] deliverW).subscribers ∧
    (3 ∉ (sendNotifications [1, 2, 3] deliverW).subscribers ↔
      isUnreachableFail (deliverW 3) = true) ∧
    (sendNotifications [1, 2, 3] deliverW).subscribers = [1, 3] :=
  ⟨(thm_C4 [1, 2, 3] deliverW 2 (by decide) (by decide)).mpr (by decide),
   thm_C4 [1, 2, 3] deliverW 3 (by decide) (by decide),
   by decide⟩

/-- C5 (amended): `send_notifications` attempts delivery to every
subscriber in the batch — the `successful_sends` counter it logs equals
the number of successful deliveries over the whole batch, so no failure
aborts the remaining sends — but the function's return value is always
`None`: the count is logged, not returned. -/
theorem thm_C5 (subscribers : List Nat)
    (deliver : Nat → DeliveryResult) :
    (sendNotifications subscribers deliver).successful_sends =
        subscribers.countP (fun u => isOkDelivery (deliver u)) ∧
    (sendNotifications subscribers deliver).ret = none := by
  cases subscribers with
  | nil => simp [sendNotifications]
  | cons v rest =>
    refine ⟨?_, rfl⟩
    have h := notifyLoop_count deliver (v :: rest) (v :: rest) 0
    simp only [sendNotifications, List.isEmpty_cons, if_false,
      Bool.false_eq_true]
    rw [h]
    omega

/-- Counterexample to C5 as stated: at a concrete batch with one
subscriber and a successful delivery, the successful-send count is 1 but
the function's return value is `None`, not the count. -/
theorem thm_C5_counterexample :
    (sendNotifications [7] (fun _ => DeliveryResult.ok)).successful_sends
        = 1 ∧
    (sendNotifications [7] (fun _ => DeliveryResult.ok)).ret = none ∧
    (sendNotifications [7] (fun _ => DeliveryResult.ok)).ret ≠
      some (sendNotifications [7]
        (fun _ => DeliveryResult.ok)).successful_sends :=
  ⟨rfl, rfl, by decide⟩

/-- The number of rendered entries equals the number of records of the
processed list whose date `strptime` accepts, whatever the starting
counter value: records with rejected dates are skipped but everything
else is rendered. -/
theorem renderEntries_length (l : List SlotRecord) :
    ∀ i : Nat, (renderEntries i l).length =
      l.countP (fun s => (parseDate s.date).isSome) := by
  induction l with
  | nil =>
    intro i
    simp [renderEntries]
  | cons s rest ih =>
    intro i
    cases h : renderSlot i s with
    | none =>
      have hps : (parseDate s.date).isSome = false := by
        rw [renderSlot] at h
        cases hp : parseDate s.date with
        | none => simp
        | some v => rw [hp] at h; simp at h
      simp [renderEntries, h, List.countP_cons, hps, ih]
    | some e =>
      have hps : (parseDate s.date).isSome = true := by
        rw [renderSlot] at h
        cases hp : parseDate s.date with
        | none => rw [hp] at h; simp at h
        | some v => simp
      simp [renderEntries, h, List.countP_cons, hps, ih]

/-- C6: a snapshot of 20 records (whose dates are calendar dates, as the
data model demands) is formatted as exactly 15 rendered entries followed
by a suffix announcing 5 more slots; for every snapshot of more than 15
records, at most 15 entries are rendered and the suffix announces
`record count − 15` more. -/
theorem thm_C6 (now : String) (slots : List SlotRecord) :
    (slots.length = 20 →
      (∀ s ∈ slots.take 15, (parseDate s.date).isSome = true) →
      (renderEntries 1 (slots.take 15)).length = 15 ∧
      moreSuffix slots = "<i>... и ещё 5 слотов</i>\n" ∧
      formatSlotsMessage now slots =
        "🎉 <b>Доступные слоты для доставки:</b>\n\n" ++
          String.join (renderEntries 1 (slots.take 15)) ++
          "<i>... и ещё 5 слотов</i>\n" ++
          ("\n🕐 <i>Проверено: " ++ now ++ "</i>")) ∧
    (15 < slots.length →
      (renderEntries 1 (slots.take 15)).length ≤ 15 ∧
      moreSuffix slots =
        "<i>... и ещё " ++ toString (slots.length - 15) ++
          " слотов</i>\n") := by
  constructor
  · intro hlen hdates
    have htake : (slots.take 15).length = 15 := by
      rw [List.length_take, hlen]
      omega
    have hcount : (renderEntries 1 (slots.take 15)).length = 15 := by
      rw [renderEntries_length]
      rw [List.countP_eq_length.mpr hdates, htake]
    have hms : moreSuffix slots = "<i>... и ещё 5 слотов</i>\n" := by
      simp only [moreSuffix, hlen]
      decide
    have hemp : slots.isEmpty = false := by
      cases slots with
      | nil => simp at hlen
      | cons a l => rfl
    refine ⟨hcount, hms, ?_⟩
    simp only [formatSlotsMessage, hemp, Bool.false_eq_true, if_false, hms]
  · intro hgt
    constructor
    · rw [renderEntries_length]
      calc (slots.take 15).countP (fun s => (parseDate s.date).isSome)
          ≤ (slots.take 15).length := List.countP_le_length _
        _ ≤ 15 := by rw [List.length_take]; omega
    · rw [moreSuffix, if_pos hgt]

/-- Witness for C6 at a concrete input: 20 copies of a well-formed
record yield 15 rendered entries and the suffix `... и ещё 5 слотов`. -/
theorem thm_C6_witness :
    (renderEntries 1 ((List.replicate 20 slotW).take 15)).length = 15 ∧
    moreSuffix (List.replicate 20 slotW) = "<i>... и ещё 5 слотов</i>\n" := by
  have h := (thm_C6 "12:00:00" (List.replicate 20 slotW)).1
    (by decide) (by decide)
  exact ⟨h.1, h.2.1⟩

/-- C7 (amended): every rendered entry consists of the record's date
reformatted from `YYYY-MM-DD` to `DD.MM.YYYY`, the
`start_time - end_time` range and the price line, and the price line is
present exactly when the price field is present AND non-zero — Python's
`if slot['price']:` truthiness suppresses the line for a zero price. -/
theorem thm_C7 (i : Nat) (s : SlotRecord) (y m d : Nat)
    (h : parseDate s.date = some (y, m, d)) :
    renderSlot i s =
      some ("<b>" ++ toString i ++ ". 📅 " ++ dateDisplay y m d ++
        "</b>\n" ++ "   🕒 " ++ s.start_time ++ " - " ++ s.end_time ++
        "\n" ++ priceLine s ++ "\n") ∧
    (priceLine s = "" ↔ (s.price = none ∨ s.price = some 0)) := by
  constructor
  · rw [renderSlot, h]
    rfl
  · cases hp : s.price with
    | none => simp [priceLine, hp]
    | some p =>
      by_cases hp0 : p = 0
      · subst hp0
        simp [priceLine, hp]
      · simp only [priceLine, hp, if_neg hp0]
        constructor
        · intro heq
          have hl := congrArg String.length heq
          rw [String.length_append, String.length_append,
            String.length_append, String.length_append] at hl
          have h5 : ("   💰 " : String).length = 5 := by decide
          have hsp : (" " : String).length = 1 := by decide
          have h1 : ("\n" : String).length = 1 := by decide
          have h0 : ("" : String).length = 0 := by decide
          rw [h5, hsp, h1, h0] at hl
          omega
        · intro hc
          rcases hc with hc | hc
          · simp at hc
          · simp at hc
            exact absurd hc hp0


/-- Witness for C7 at a concrete input: the record with date
`2025-01-02` and price 199 renders as date display, time range and a
non-empty price line. -/
theorem thm_C7_witness :
    renderSlot 2 slotW =
      some ("<b>" ++ toString 2 ++ ". 📅 " ++ dateDisplay 2025 1 2 ++
        "</b>\n" ++ "   🕒 " ++ slotW.start_time ++ " - " ++
        slotW.end_time ++ "\n" ++ priceLine slotW ++ "\n") ∧
    (priceLine slotW = "" ↔ (slotW.price = none ∨ slotW.price = some 0)) :=
  thm_C7 2 slotW 2025 1 2 (by decide)

/-- Counterexample to C7 as stated: a record whose price field is
present but `0` is rendered without any price line — the `💰` marker
does not occur in the entry — refuting "a price line exactly when the
record's price field is present". -/
theorem thm_C7_counterexample :
    slotZeroPrice.price.isSome = true ∧
    renderSlot 1 slotZeroPrice =
      some "<b>1. 📅 04.03.2025</b>\n   🕒 10:00 - 11:00\n\n" ∧
    strContains "<b>1. 📅 04.03.2025</b>\n   🕒 10:00 - 11:00\n\n" "💰"
      = false :=
  ⟨rfl, by decide, by decide⟩

/-- C10: `format_slots_message` is total on arbitrary date strings — the
number of rendered entries equals the number of records among the first
15 whose date parses, so a record with a rejected date is skipped yet
still consumes one of the 15 positions — while the `+N more` suffix is
computed from the full record count, not from the rendered entries. -/
theorem thm_C10 (slots : List SlotRecord) :
    (renderEntries 1 (slots.take 15)).length =
      (slots.take 15).countP (fun s => (parseDate s.date).isSome) ∧
    (15 < slots.length →
      moreSuffix slots =
        "<i>... и ещё " ++ toString (slots.length - 15) ++
          " слотов</i>\n") := by
  refine ⟨renderEntries_length _ 1, fun hgt => ?_⟩
  rw [moreSuffix, if_pos hgt]

/-- Witness for C10 at a concrete input: a 16-record snapshot whose
first record has the unparseable date `"скоро"` renders only 14 entries
(the bad record consumed a position without producing an entry) while
the suffix still announces one more slot. -/
theorem thm_C10_witness :
    (renderEntries 1 (slotsW16.take 15)).length =
      (slotsW16.take 15).countP (fun s => (parseDate s.date).isSome) ∧
    moreSuffix slotsW16 = "<i>... и ещё 1 слотов</i>\n" ∧
    (renderEntries 1 (slotsW16.take 15)).length = 14 := by
  have h := thm_C10 slotsW16
  refine ⟨h.1, ?_, by decide⟩
  rw [h.2 (by decide)]
  decide

/-- C8: `parse_slots` keeps a slot record iff the source slot entry's
availability flag is truthy AND its type equals `'regular'`; unavailable
or non-regular slots are dropped without error, and an input carrying
neither recognised slot-list key yields an empty snapshot rather than a
failure. -/
theorem thm_C8 (d : SlotsData) (r : SlotRecord) :
    (r ∈ parseSlots d ↔
      ∃ day ∈ slotsListOf d, ∃ s ∈ day.slots.getD [],
        s.available = true ∧ s.slotType = some "regular" ∧
        r = mkRecord day s) ∧
    (d.slots = none → d.available_slots = none → parseSlots d = []) := by
  constructor
  · constructor
    · intro hr
      rw [parseSlots] at hr
      rcases List.mem_flatMap.mp hr with ⟨day, hday, hrd⟩
      rcases List.mem_map.mp hrd with ⟨s, hsf, hmk⟩
      rcases List.mem_filter.mp hsf with ⟨hs, hok⟩
      rw [slotOk, Bool.and_eq_true, beq_iff_eq] at hok
      exact ⟨day, hday, s, hs, hok.1, hok.2, hmk.symm⟩
    · rintro ⟨day, hday, s, hs, hav, hty, hr⟩
      rw [parseSlots]
      apply List.mem_flatMap.mpr
      refine ⟨day, hday,
        List.mem_map.mpr ⟨s, List.mem_filter.mpr ⟨hs, ?_⟩, hr.symm⟩⟩
      rw [slotOk, Bool.and_eq_true, beq_iff_eq]
      exact ⟨hav, hty⟩
  · intro h1 h2
    simp [parseSlots, slotsListOf, h1, h2]

/-- Witness for C8 at concrete inputs: a response with neither `slots`
nor `available_slots` parses to the empty snapshot, and the three-slot
response `dataW` keeps exactly its available regular slot. -/
theorem thm_C8_witness :
    parseSlots ⟨none, none⟩ = [] ∧
    parseSlots dataW = [⟨"2025-01-02", "10:00", "11:00", some 199, "₽"⟩] :=
  ⟨(thm_C8 ⟨none, none⟩ slotW).2 rfl rfl, by decide⟩

/-- C9: `check_slots` never raises to its caller — with the outer
`try/except` in place the computation always ends in the `ok` state and
its value is what the caller receives, and whenever the body raises the
caller receives the `None` failure value. -/
theorem thm_C9 (env : Env) :
    (∃ v, checkSlotsCaught env = Except.ok v ∧ checkSlots env = v) ∧
    (∀ e, checkSlotsBody env = Except.error e → checkSlots env = none) := by
  constructor
  · cases h : checkSlotsBody env with
    | ok v =>
      exact ⟨v, by simp [checkSlotsCaught, h], by simp [checkSlots, h]⟩
    | error e =>
      exact ⟨none, by simp [checkSlotsCaught, h], by simp [checkSlots, h]⟩
  · intro e he
    simp [checkSlots, he]

/-- Witness for C9 at a concrete input: when the search GET itself
raises, the body errors and `check_slots` returns the `None` failure
value. -/
theorem thm_C9_witness : checkSlots envFail = none :=
  (thm_C9 envFail).2 (.netError "timeout") rfl

end Lavka
